import Mathlib

/-!
Verification of the blinkbo stack viewer's coordinate and session bookkeeping.

This file gives a shallow embedding of the pure core of `stack.py`: the tile
grid generated in `__main__`, the per-point coordinate transforms performed by
`DisplayManager.save_regions` and `DisplayManager.load_regions`, the sidecar
rewrite performed by `DisplayManager.delete_region`, the sidecar file naming
and line formatting, the saturating tile navigation of the `n`/`p` handlers,
and the key-event dispatch of the main interaction loop.

Python floats are modelled as rationals (every arithmetic step the program
performs on coordinates is exact at the inputs considered here), file I/O as
explicit `Option`/function arguments, and raised exceptions as `Except.error`.
-/

namespace Blinkbo

deriving instance DecidableEq for Except

/-- Model of the Python value stored in `DisplayManager.sections[frameno]`:
either an actual 4-tuple `(x1, x2, y1, y2)` of section bounds, the Python
value `None` (stored by `load_image` when called with `section=None`), or the
string `"None"` (the value that the guard `if section == "None"` in
`load_regions` / `save_regions` actually tests for). -/
inductive SectionVal where
  | tup (x1 x2 y1 y2 : ℤ)
  | pynone
  | strNone
deriving DecidableEq

/-- Model of the guard `if section == "None": section = (1, 0, 1, 0)` at the
top of both `load_regions` (stack.py line 98) and `save_regions` (line 119).
In Python, `section == "None"` is true only when `section` is the string
`"None"`; a tuple or the value `None` compares unequal to that string. -/
def sectionGuard : SectionVal → SectionVal
  | .strNone => .tup 1 0 1 0
  | s => s

/-- Message standing for the `TypeError` Python raises when the value `None`
is subscripted (`section[0]`, `section[1]`, ...). -/
def typeErrorNone : String := "TypeError: NoneType is not subscriptable"

/-- Message standing for the `IOError` raised by `open(path)` on a missing
file. -/
def missingSidecarError : String := "IOError: sidecar file does not exist"

/-- Per-point local-to-global transform performed by `save_regions`
(stack.py lines 121-122):
`x = region[0] + section[0] - 1` and `y = region[1] + section[1] - 1`.
Note the source indexes `section[1]` (the x-axis maximum) for the y offset.
Subscripting the Python value `None` raises. -/
def saveTransform (s : SectionVal) (x y : ℚ) : Except String (ℚ × ℚ) :=
  match sectionGuard s with
  | .tup a b _ _ => .ok (x + (a : ℚ) - 1, y + (b : ℚ) - 1)
  | _ => .error typeErrorNone

/-- Per-point global-to-local transform performed by `load_regions`
(stack.py lines 101-102):
`x = float(x) - section[0] + 1.0` and `y = float(y) - section[2] + 1.0`. -/
def loadTransform (s : SectionVal) (x y : ℚ) : Except String (ℚ × ℚ) :=
  match sectionGuard s with
  | .tup a _ c _ => .ok (x - (a : ℚ) + 1, y - (c : ℚ) + 1)
  | _ => .error typeErrorNone

/-- Rounding of a stored coordinate to two decimal places, as performed by the
`"{:12.2f}".format` write in `save_regions` followed by `float()` on re-read.
CPython rounds the binary double half-to-even; the model rounds the exact
rational half-up, which agrees everywhere except exact half-cent ties, none of
which occur in the program's integer-offset arithmetic at the inputs
considered in this file. -/
def roundCents (q : ℚ) : ℚ := (round (q * 100) : ℤ) / 100

/-- Right-alignment of a rendered number in a field of width 12, the padding
behaviour of Python's `"{:12.2f}"` format specifier. -/
def pad12 (s : String) : String := String.mk (List.replicate (12 - s.length) ' ') ++ s

/-- Fixed-point rendering with exactly two decimals, the digit part of
Python's `"{:12.2f}"` format specifier (same round-to-cents caveat as
`roundCents`). -/
def fmtFixed2 (q : ℚ) : String :=
  let c : ℤ := round (q * 100)
  let sign := if c < 0 then "-" else ""
  let n := c.natAbs
  sign ++ toString (n / 100) ++ "." ++ (if n % 100 < 10 then "0" else "") ++ toString (n % 100)

/-- One sidecar line as written by `save_regions` (stack.py line 123): two
width-12 fields separated by a single space (the trailing newline is left
implicit in the line-list model of file contents). -/
def fmtLine (x y : ℚ) : String := pad12 (fmtFixed2 x) ++ " " ++ pad12 (fmtFixed2 y)

/-- Lines written by the `for region in self.regions` loop of `save_regions`
(stack.py lines 120-123): each displayed region is transformed to global
coordinates and formatted. An error (only possible when the section is the
Python value `None`) models the raised exception. -/
def save_lines (s : SectionVal) : List (ℚ × ℚ) → Except String (List String)
  | [] => .ok []
  | p :: rest =>
      (saveTransform s p.1 p.2).bind fun q =>
        (save_lines s rest).map fun ls => fmtLine q.1 q.2 :: ls

/-- The same `save_regions` loop, viewed as the parsed-back points of the
rewritten sidecar (each written field re-reads as its value rounded to two
decimals). -/
def save_points (s : SectionVal) : List (ℚ × ℚ) → Except String (List (ℚ × ℚ))
  | [] => .ok []
  | p :: rest =>
      (saveTransform s p.1 p.2).bind fun q =>
        (save_points s rest).map fun qs => (roundCents q.1, roundCents q.2) :: qs

/-- Marks drawn by the `for line in open(...)` loop of `load_regions`
(stack.py lines 100-103): each stored point is transformed to the local frame
and drawn with `self.mark(x, y)`. -/
def load_points (s : SectionVal) : List (ℚ × ℚ) → Except String (List (ℚ × ℚ))
  | [] => .ok []
  | p :: rest =>
      (loadTransform s p.1 p.2).bind fun q =>
        (load_points s rest).map fun qs => q :: qs

/-- Model of `DisplayManager.load_regions` (stack.py lines 93-103). The
sidecar file is an `Option`: `none` means the file does not exist, in which
case the `os.access` guard returns early with no marks drawn. -/
def load_regions (file : Option (List (ℚ × ℚ))) (s : SectionVal) :
    Except String (List (ℚ × ℚ)) :=
  match file with
  | Option.none => .ok []
  | some pts => load_points s pts

/-- The keep-filter of `DisplayManager.delete_region` (stack.py lines 130-136):
a stored point is skipped exactly when `math.sqrt((rx-x)**2 + (ry-y)**2) < 1`;
since both sides are nonnegative this is equivalent to the squared comparison
used here. -/
def delete_keep (x y : ℚ) : List (ℚ × ℚ) → List (ℚ × ℚ)
  | [] => []
  | p :: rest =>
      if (p.1 - x) ^ 2 + (p.2 - y) ^ 2 < 1 then delete_keep x y rest
      else p :: delete_keep x y rest

/-- Model of `DisplayManager.delete_region` (stack.py lines 127-138): the
sidecar is opened unconditionally (raising when absent), the surviving points
are re-drawn as display marks at their stored (global) coordinates, and
`save_regions` then rewrites the sidecar from those marks — re-applying the
`saveTransform` offsets to them. The result is the rewritten sidecar
content. -/
def delete_region (file : Option (List (ℚ × ℚ))) (s : SectionVal) (x y : ℚ) :
    Except String (List (ℚ × ℚ)) :=
  match file with
  | Option.none => .error missingSidecarError
  | some pts => save_points s (delete_keep x y pts)

/-- Characters strictly before the last `.` of a name, or `none` when the
name has no dot. -/
def takeBeforeLastDot : List Char → Option (List Char)
  | [] => Option.none
  | c :: rest =>
      match takeBeforeLastDot rest with
      | some tail => some (c :: tail)
      | Option.none => if c = '.' then some [] else Option.none

/-- Root of a file name before its extension, as used by
`os.path.splitext(self.filenames[idx])[0]` (stack.py line 91) on the plain
`<base>.<ext>` names the program produces. -/
def splitext_root (s : String) : String :=
  match takeBeforeLastDot s.data with
  | some r => String.mk r
  | Option.none => s

/-- Model of `DisplayManager.region_filename` (stack.py lines 88-91): the
image path with its extension replaced by `coo`. -/
def region_filename (image : String) : String :=
  splitext_root image ++ "." ++ "coo"

/-- Cutout expression built by `load_image` (stack.py lines 147-151):
`"[*,*]"` when `section is None`, else the 1-based inclusive range
expression. -/
def cutout_expr : Option (ℤ × ℤ × ℤ × ℤ) → String
  | Option.none => "[*,*]"
  | some (a, b, c, d) =>
      "[" ++ toString a ++ ":" ++ toString b ++ "," ++ toString c ++ ":" ++ toString d ++ "]"

/-- The `SectionVal` recorded in `self.sections[self.frame_number]` by
`load_image` (stack.py line 155): the tuple itself, or the Python value
`None`. -/
def secValOfOpt : Option (ℤ × ℤ × ℤ × ℤ) → SectionVal
  | Option.none => SectionVal.pynone
  | some (a, b, c, d) => SectionVal.tup a b c d

/-- Model of `DisplayManager.load_image` (stack.py lines 146-158). The first
component is the `(filenames, sections)` frame binding recorded before the
label call; the second is the cutout expression sent to the viewer; the third
is the label anchor `(section[1] - 10, (section[2] + section[3]) / 2)` — or
the `TypeError` raised by evaluating `section[1] - 10` when `section` is
`None`. -/
def load_image (image_name : String) (sect : Option (ℤ × ℤ × ℤ × ℤ)) :
    (String × SectionVal) × String × Except String (ℚ × ℚ) :=
  ((image_name, secValOfOpt sect), cutout_expr sect,
    match sect with
    | Option.none => .error typeErrorNone
    | some (_, b, c, d) => .ok ((b : ℚ) - 10, ((c : ℚ) + (d : ℚ)) / 2))

/-- Model of Python's `range(start, stop, step)` for positive step, as a list
of the generated values. -/
def pyRange (start stop step : ℕ) : List ℕ :=
  (List.range ((stop - start + step - 1) / step)).map (fun i => start + i * step)

/-- Section list generated in `__main__` (stack.py lines 215-221):
`for x1 in range(1, width_limit + 1, edge): for y1 in range(...): append
(x1, x1 + edge, y1, y1 + edge)`. The hard-coded edge 128 of the source is the
parameter `E`. -/
def build_sections (W H E : ℕ) : List (ℕ × ℕ × ℕ × ℕ) :=
  (pyRange 1 (W + 1) E).flatMap fun x1 =>
    (pyRange 1 (H + 1) E).map fun y1 => (x1, x1 + E, y1, y1 + E)

/-- Row-major tile enumeration as the spec phrases it: `ceil(W/E)` strides on
x (outer) and `ceil(H/E)` strides on y (inner), each tile spanning one edge
from its start. Stated from the spec's words, to be compared with
`build_sections`. -/
def rowMajorGrid (W H E : ℕ) : List (ℕ × ℕ × ℕ × ℕ) :=
  (List.range (W ⌈/⌉ E)).flatMap fun i =>
    (List.range (H ⌈/⌉ E)).map fun j =>
      (1 + i * E, 1 + i * E + E, 1 + j * E, 1 + j * E + E)

/-- Inclusive-bounds membership of a pixel in a tile, matching the viewer's
`[x1:x2,y1:y2]` cutout convention. -/
def tileContains (t : ℕ × ℕ × ℕ × ℕ) (x y : ℕ) : Prop :=
  t.1 ≤ x ∧ x ≤ t.2.1 ∧ t.2.2.1 ≤ y ∧ y ≤ t.2.2.2

instance (t : ℕ × ℕ × ℕ × ℕ) (x y : ℕ) : Decidable (tileContains t x y) := by
  unfold tileContains; exact inferInstance

/-- Half-open membership of a pixel in a tile: strictly inside, excluding the
tile's upper boundary row and column. -/
def tileContainsInner (t : ℕ × ℕ × ℕ × ℕ) (x y : ℕ) : Prop :=
  t.1 ≤ x ∧ x < t.2.1 ∧ t.2.2.1 ≤ y ∧ y < t.2.2.2

instance (t : ℕ × ℕ × ℕ × ℕ) (x y : ℕ) : Decidable (tileContainsInner t x y) := by
  unfold tileContainsInner; exact inferInstance

/-- Model of the `n` handler's index update (stack.py line 235):
`idx = min(idx + 1, len(sections) - 1)`. -/
def navNext (len idx : ℤ) : ℤ := min (idx + 1) (len - 1)

/-- Model of the `p` handler's index update (stack.py line 240):
`idx = max(idx - 1, 0)`. -/
def navPrev (idx : ℤ) : ℤ := max (idx - 1) 0

/-- A tile-navigation key. -/
inductive NavKey where
  | n
  | p
deriving DecidableEq

/-- One navigation event applied to the current index. -/
def navStep (len idx : ℤ) : NavKey → ℤ
  | .n => navNext len idx
  | .p => navPrev idx

/-- A whole sequence of navigation events applied in order. -/
def navRun (len idx : ℤ) (ks : List NavKey) : ℤ := ks.foldl (navStep len) idx

/-- A key event recognised by the main loop (stack.py lines 231-268). -/
inductive Key where
  | n
  | p
  | b
  | a
  | d
  | question
  | q
  | other
deriving DecidableEq

/-- State touched by the main interaction loop, restricted to the active
frame: the current section index, the blink flag, the circle regions drawn on
the active frame, and the active image's sidecar file (`none` = absent). -/
structure LoopState where
  idx : ℤ
  blinking : Bool
  marks : List (ℚ × ℚ)
  sidecar : Option (List (ℚ × ℚ))
deriving DecidableEq

/-- Warning printed by the `a` handler while blinking (stack.py line 248). -/
def warnAdd : String := "Toggle off blink (b) before marking."

/-- Warning printed by the `d` handler while blinking (stack.py line 258). -/
def warnDel : String := "Toggle off blink (b) before deleting a mark."

/-- Python `sections[idx]` lookup; out-of-range raises `IndexError`. The loop
keeps `idx` in range, so the negative-index wrap of Python lists is never
exercised and is not modelled. -/
def getSection (sections : List (ℤ × ℤ × ℤ × ℤ)) (i : ℤ) :
    Except String (ℤ × ℤ × ℤ × ℤ) :=
  match sections.get? i.toNat with
  | some s => .ok s
  | Option.none => .error "IndexError: list index out of range"

/-- The `SectionVal` of an actual section tuple. -/
def secValOf (t : ℤ × ℤ × ℤ × ℤ) : SectionVal :=
  SectionVal.tup t.1 t.2.1 t.2.2.1 t.2.2.2

/-- One iteration of the main interaction loop (stack.py lines 227-268),
dispatching a key event at the viewer-local cursor position `(x, y)`. Result:
the new state, the printed warnings, and whether the loop continues
(`false` only for `q`). `n`/`p` clamp the index, clear all frames, and reload
the stack at the new section (the active frame's marks become the reloaded
sidecar marks); `b` toggles blinking; `a` and `d` are rejected with a warning
while blinking, otherwise `a` draws a mark and saves all marks through
`save_regions`, and `d` converts the cursor to global coordinates with
`sections[idx][0]/[2]`, delegates to `delete_region`, and reloads the active
image. -/
def dispatch (sections : List (ℤ × ℤ × ℤ × ℤ)) (st : LoopState) (key : Key)
    (x y : ℚ) : Except String (LoopState × List String × Bool) :=
  match key with
  | .n =>
      (getSection sections (navNext (sections.length : ℤ) st.idx)).bind fun sec =>
        (load_regions st.sidecar (secValOf sec)).map fun ms =>
          ({ st with idx := navNext (sections.length : ℤ) st.idx, marks := ms }, [], true)
  | .p =>
      (getSection sections (navPrev st.idx)).bind fun sec =>
        (load_regions st.sidecar (secValOf sec)).map fun ms =>
          ({ st with idx := navPrev st.idx, marks := ms }, [], true)
  | .b => .ok ({ st with blinking := !st.blinking }, [], true)
  | .a =>
      if st.blinking then .ok (st, [warnAdd], true)
      else
        (getSection sections st.idx).bind fun sec =>
          (save_points (secValOf sec) (st.marks ++ [(x, y)])).map fun pts =>
            ({ st with marks := st.marks ++ [(x, y)], sidecar := some pts }, [], true)
  | .d =>
      if st.blinking then .ok (st, [warnDel], true)
      else
        (getSection sections st.idx).bind fun sec =>
          (delete_region st.sidecar (secValOf sec)
              ((sec.1 : ℚ) + x - 1) ((sec.2.2.1 : ℚ) + y - 1)).bind fun pts =>
            (load_regions (some pts) (secValOf sec)).map fun ms =>
              ({ st with marks := ms, sidecar := some pts }, [], true)
  | .question => .ok (st, [], true)
  | .q => .ok ({ st with blinking := false }, [], false)
  | .other => .ok (st, [], true)

/-! ## Helper lemmas -/

/-- Evaluation of the two-decimal rendering at 64. -/
theorem fmtFixed2_64 : fmtFixed2 64 = "64.00" := by
  unfold fmtFixed2
  rw [show round ((64 : ℚ) * 100) = 6400 by norm_num [round_eq]]
  decide

/-- Evaluation of the two-decimal rendering at 192. -/
theorem fmtFixed2_192 : fmtFixed2 192 = "192.00" := by
  unfold fmtFixed2
  rw [show round ((192 : ℚ) * 100) = 19200 by norm_num [round_eq]]
  decide

/-- The sidecar line the program writes for the point the end-to-end scenario
saves. -/
theorem fmtLine_64_192 : fmtLine 64 192 = "       64.00       192.00" := by
  rw [fmtLine, fmtFixed2_64, fmtFixed2_192]
  decide

/-- The generated section list is exactly the row-major enumeration with
`ceil` counts on both axes. -/
theorem build_sections_eq_rowMajorGrid (W H E : ℕ) :
    build_sections W H E = rowMajorGrid W H E := by
  simp [build_sections, rowMajorGrid, pyRange, Nat.ceilDiv_eq_add_pred_div,
    List.flatMap_map, List.map_map, Function.comp_def]

/-- The number of generated sections. -/
theorem length_build_sections (W H E : ℕ) :
    (build_sections W H E).length = (W ⌈/⌉ E) * (H ⌈/⌉ E) := by
  simp [build_sections, pyRange, List.length_flatMap, List.map_map, Function.comp_def,
    List.map_const', Nat.ceilDiv_eq_add_pred_div]

/-- Characterisation of membership in the generated section list. -/
theorem mem_build_sections_iff {W H E : ℕ} {t : ℕ × ℕ × ℕ × ℕ} :
    t ∈ build_sections W H E ↔
      ∃ i, i < (W + E - 1) / E ∧ ∃ j, j < (H + E - 1) / E ∧
        t = (1 + i * E, 1 + i * E + E, 1 + j * E, 1 + j * E + E) := by
  simp only [build_sections, pyRange, List.mem_flatMap, List.mem_map, List.mem_range]
  constructor
  · rintro ⟨x1, ⟨i, hi, rfl⟩, y1, ⟨j, hj, rfl⟩, rfl⟩
    exact ⟨i, by simpa using hi, j, by simpa using hj, rfl⟩
  · rintro ⟨i, hi, j, hj, rfl⟩
    exact ⟨1 + i * E, ⟨i, by simpa using hi, rfl⟩, ⟨1 + j * E, ⟨j, by simpa using hj, rfl⟩, rfl⟩⟩

/-- Every coordinate of `[1, W]` lies in one of the stride intervals. -/
theorem stride_covers {W E x : ℕ} (hE : 1 ≤ E) (h1 : 1 ≤ x) (h2 : x ≤ W) :
    ∃ i, i < (W + E - 1) / E ∧ 1 + i * E ≤ x ∧ x ≤ 1 + i * E + E := by
  refine ⟨(x - 1) / E, ?_, ?_, ?_⟩
  · have ha : (x - 1) / E ≤ (W - 1) / E := Nat.div_le_div_right (by omega)
    have hb : (W - 1 + E) / E = (W - 1) / E + 1 := Nat.add_div_right _ (by omega)
    have hc : W + E - 1 = W - 1 + E := by omega
    rw [hc, hb]
    omega
  · have := Nat.div_mul_le_self (x - 1) E
    omega
  · have hmod := Nat.div_add_mod (x - 1) E
    have hlt : (x - 1) % E < E := Nat.mod_lt _ (by omega)
    rw [Nat.mul_comm] at hmod
    omega

/-- Two distinct stride intervals `[1 + a·E, 1 + a·E + E)` are disjoint. -/
theorem stride_interval_disjoint {E a b x : ℕ} (hne : a ≠ b)
    (h1 : 1 + a * E ≤ x) (h2 : x < 1 + a * E + E)
    (h3 : 1 + b * E ≤ x) (h4 : x < 1 + b * E + E) : False := by
  rcases Nat.lt_or_ge a b with hlt | hge
  · have hm : (a + 1) * E ≤ b * E := mul_le_mul_right' (by omega) E
    have hs : (a + 1) * E = a * E + E := by ring
    omega
  · have hm : (b + 1) * E ≤ a * E := mul_le_mul_right' (by omega) E
    have hs : (b + 1) * E = b * E + E := by ring
    omega

/-! ## Claim C1 — save-time and load-time transforms -/

/-- Claim C1, evaluated against the code at its failing input: for the
program's first tile `(1, 129, 1, 129)` and local point `(64, 64)`,
`save_regions` computes the global point `(64, 192)` — the y offset uses
`section[1]` (x_max = 129), not `section[2]` (y_min = 1) — so the save-time
transform is not `(x + x_min - 1, y + y_min - 1)`, and `load_regions` maps the
saved point back to `(64, 192)`, not to the original `(64, 64)`: the two
transforms are not mutual inverses. -/
theorem save_transform_y_uses_xmax :
    saveTransform (SectionVal.tup 1 129 1 129) 64 64 = Except.ok (64, 192) ∧
    loadTransform (SectionVal.tup 1 129 1 129) 64 192 = Except.ok (64, 192) ∧
    saveTransform (SectionVal.tup 1 129 1 129) 64 64 ≠ Except.ok (64, 64) := by
  refine ⟨?_, ?_, ?_⟩ <;> norm_num [saveTransform, loadTransform, sectionGuard]

/-! ## Claim C2 — end-to-end 256x256 scenario -/

/-- Claim C2 is false on the code at its own concrete input: the generated
section list for a 256x256 mosaic with edge 128 is not the claimed
`(1,128,1,128), ...` list (the code appends `x1 + 128`, giving upper bounds
129 and 257), and saving the single mark `(64, 64)` at the first generated
tile does not write the claimed line `"       64.00        64.00"` (the
y field written is `192.00`). -/
theorem scenario_256_counterexample :
    build_sections 256 256 128 ≠
      [(1, 128, 1, 128), (1, 128, 129, 256), (129, 256, 1, 128), (129, 256, 129, 256)] ∧
    save_lines (SectionVal.tup 1 129 1 129) [(64, 64)] ≠
      Except.ok ["       64.00        64.00"] := by
  constructor
  · decide
  · have h : save_lines (SectionVal.tup 1 129 1 129) [(64, 64)] =
        Except.ok [fmtLine 64 192] := by
      norm_num [save_lines, saveTransform, sectionGuard, Except.bind, Except.map]
    rw [h, fmtLine_64_192]
    decide

/-- Claim C2 as amended to what the code does: the 256x256 mosaic with edge
128 yields the four sections `(1,129,1,129), (1,129,129,257), (129,257,1,129),
(129,257,129,257)` in that order; the sidecar for image `a.fits` is `a.coo`;
and marking local point `(64, 64)` on the first section then saving writes the
single line `"       64.00       192.00"` (two 2-decimal fields right-aligned
in width 12, space-separated; the y field shows the `section[1]` offset slip of
`save_regions`). -/
theorem scenario_256_amended :
    build_sections 256 256 128 =
      [(1, 129, 1, 129), (1, 129, 129, 257), (129, 257, 1, 129), (129, 257, 129, 257)] ∧
    region_filename "a.fits" = "a.coo" ∧
    save_lines (SectionVal.tup 1 129 1 129) [(64, 64)] =
      Except.ok ["       64.00       192.00"] := by
  refine ⟨by decide, by decide, ?_⟩
  have h : save_lines (SectionVal.tup 1 129 1 129) [(64, 64)] =
      Except.ok [fmtLine 64 192] := by
    norm_num [save_lines, saveTransform, sectionGuard, Except.bind, Except.map]
  rw [h, fmtLine_64_192]

/-! ## Claim C3 — delete-near rewrite -/

/-- Claim C3, evaluated against the code at its failing input: with stored
points `{(0,0), (0.5,0.5), (10,10)}` on a frame bound to the program's first
tile `(1, 129, 1, 129)`, deleting at global `(0, 0)` does remove exactly the
two points within distance 1 (the keep-filter retains only `(10, 10)`), but
the rewrite then re-applies the `save_regions` offsets to the kept point, so
the rewritten sidecar holds `(10, 138)` — not the unchanged `(10, 10)` the
claim requires. -/
theorem delete_region_shifts_kept_points :
    delete_keep 0 0 [(0, 0), (1/2, 1/2), (10, 10)] = [(10, 10)] ∧
    delete_region (some [(0, 0), (1/2, 1/2), (10, 10)]) (SectionVal.tup 1 129 1 129) 0 0 =
      Except.ok [(10, 138)] ∧
    delete_region (some [(0, 0), (1/2, 1/2), (10, 10)]) (SectionVal.tup 1 129 1 129) 0 0 ≠
      Except.ok [(10, 10)] := by
  have hk : delete_keep 0 0 [((0 : ℚ), (0 : ℚ)), (1/2, 1/2), (10, 10)] = [(10, 10)] := by
    norm_num [delete_keep]
  have hd : delete_region (some [((0 : ℚ), (0 : ℚ)), (1/2, 1/2), (10, 10)])
      (SectionVal.tup 1 129 1 129) 0 0 = Except.ok [(10, 138)] := by
    rw [delete_region, hk]
    norm_num [save_points, saveTransform, sectionGuard, roundCents, round_eq,
      Except.bind, Except.map]
  refine ⟨hk, hd, ?_⟩
  rw [hd]
  norm_num

/-! ## Claim C8 — the "no cropping" sentinel -/

/-- Claim C8, evaluated against the code: the transforms are not the identity
on the sentinel. For the actual sentinel — the Python value `None` stored by a
full-image load — both transforms raise, because the guard compares the
section against the string `"None"`. For the string `"None"` the guard
anticipates, the fallback tuple is `(1, 0, 1, 0)`: `load_regions` is the
identity on both axes, but `save_regions` reads its y offset from
`section[1] = 0`, mapping `(5, 5)` to `(5, 4)` — a shift of -1 on y, not the
identity. -/
theorem sentinel_transforms_not_identity :
    loadTransform SectionVal.strNone 5 5 = Except.ok (5, 5) ∧
    saveTransform SectionVal.strNone 5 5 = Except.ok (5, 4) ∧
    saveTransform SectionVal.strNone 5 5 ≠ Except.ok (5, 5) ∧
    loadTransform SectionVal.pynone 5 5 = Except.error typeErrorNone ∧
    saveTransform SectionVal.pynone 5 5 = Except.error typeErrorNone := by
  refine ⟨?_, ?_, ?_, rfl, rfl⟩ <;> norm_num [saveTransform, loadTransform, sectionGuard]

/-! ## Claim C9 — full-image load always raises -/

/-- Claim C9: for every path, `load_image(path, section=None)` builds the
full-extent cutout `"[*,*]"` but then raises evaluating `section[1] - 10` for
the label, after recording a frame binding whose section is the value `None`;
that binding is unusable, since with a `None` section both `load_regions` and
`save_regions` also raise — their sentinel guard tests the string `"None"`,
which the value `None` never equals, so the fallback tuple is not applied. -/
theorem full_image_load_always_raises :
    ∀ (name : String) (x y : ℚ),
      (load_image name Option.none).2.1 = "[*,*]" ∧
      (load_image name Option.none).2.2 = Except.error typeErrorNone ∧
      (load_image name Option.none).1 = (name, SectionVal.pynone) ∧
      loadTransform SectionVal.pynone x y = Except.error typeErrorNone ∧
      saveTransform SectionVal.pynone x y = Except.error typeErrorNone ∧
      sectionGuard SectionVal.pynone ≠ SectionVal.tup 1 0 1 0 := by
  intro name x y
  exact ⟨rfl, rfl, rfl, rfl, rfl, by decide⟩

/-! ## Claim C10 — delete_region on a missing sidecar -/

/-- Claim C10: for every section value and cursor position, `delete_region`
raises on a missing sidecar file (it opens the file for reading
unconditionally), while `load_regions` on the same missing file returns
silently with no marks. -/
theorem delete_region_raises_on_missing_sidecar :
    ∀ (s : SectionVal) (x y : ℚ),
      delete_region Option.none s x y = Except.error missingSidecarError ∧
      load_regions Option.none s = Except.ok [] := by
  intro s x y
  exact ⟨rfl, rfl⟩

/-! ## Claim C4 — coverage, order and count of the tile grid -/

/-- Claim C4: for every width, height and edge at least 1, the generated grid
covers every pixel of `[1, W] × [1, H]` with inclusive tile bounds, equals the
row-major enumeration with x outer and y inner, and has exactly
`ceil(W/E) * ceil(H/E)` tiles. -/
theorem tile_grid_covers_rowMajor_count (W H E : ℕ)
    (_hW : 1 ≤ W) (_hH : 1 ≤ H) (hE : 1 ≤ E) :
    (∀ x y, 1 ≤ x → x ≤ W → 1 ≤ y → y ≤ H →
      ∃ t ∈ build_sections W H E, tileContains t x y) ∧
    build_sections W H E = rowMajorGrid W H E ∧
    (build_sections W H E).length = (W ⌈/⌉ E) * (H ⌈/⌉ E) := by
  refine ⟨?_, build_sections_eq_rowMajorGrid W H E, length_build_sections W H E⟩
  intro x y hx1 hx2 hy1 hy2
  obtain ⟨i, hi, hxl, hxr⟩ := stride_covers hE hx1 hx2
  obtain ⟨j, hj, hyl, hyr⟩ := stride_covers hE hy1 hy2
  refine ⟨(1 + i * E, 1 + i * E + E, 1 + j * E, 1 + j * E + E),
    mem_build_sections_iff.mpr ⟨i, hi, j, hj, rfl⟩, ?_⟩
  exact ⟨hxl, hxr, hyl, hyr⟩

/-- Witness for claim C4 at the program's own mosaic: 256 × 256 with edge
128 produces ceil(256/128)² = 4 tiles. -/
theorem tile_grid_covers_rowMajor_count_witness :
    (build_sections 256 256 128).length = (256 ⌈/⌉ 128) * (256 ⌈/⌉ 128) :=
  (tile_grid_covers_rowMajor_count 256 256 128 (by decide) (by decide) (by decide)).2.2

/-! ## Claim C5 — overlap of adjacent tiles -/

/-- Claim C5 is false on the code: in the 256 × 256, edge-128 grid the first
and third generated tiles are distinct yet both contain the pixel `(129, 1)`
under the inclusive-bounds cutout convention — adjacent tiles share their
boundary column (and row), because each tile's upper bound `x1 + E` is the
next tile's lower bound. -/
theorem tiles_share_boundary_pixel :
    (1, 129, 1, 129) ∈ build_sections 256 256 128 ∧
    (129, 257, 1, 129) ∈ build_sections 256 256 128 ∧
    ((1, 129, 1, 129) : ℕ × ℕ × ℕ × ℕ) ≠ (129, 257, 1, 129) ∧
    tileContains (1, 129, 1, 129) 129 1 ∧
    tileContains (129, 257, 1, 129) 129 1 := by
  decide

/-- Claim C5 as amended to what the code guarantees: distinct generated tiles
overlap at most on their boundary — with the upper boundary row and column
excluded (half-open reading of the bounds), no pixel lies in two distinct
tiles of the generated sequence. -/
theorem tiles_interior_disjoint (W H E : ℕ) (t1 t2 : ℕ × ℕ × ℕ × ℕ)
    (h1 : t1 ∈ build_sections W H E) (h2 : t2 ∈ build_sections W H E)
    (hne : t1 ≠ t2) (x y : ℕ) :
    ¬ (tileContainsInner t1 x y ∧ tileContainsInner t2 x y) := by
  obtain ⟨i1, hi1, j1, hj1, rfl⟩ := mem_build_sections_iff.mp h1
  obtain ⟨i2, hi2, j2, hj2, rfl⟩ := mem_build_sections_iff.mp h2
  rintro ⟨⟨ha1, hb1, hc1, hd1⟩, ⟨ha2, hb2, hc2, hd2⟩⟩
  simp only at ha1 hb1 hc1 hd1 ha2 hb2 hc2 hd2
  have hij : i1 ≠ i2 ∨ j1 ≠ j2 := by
    by_contra hc
    push_neg at hc
    exact hne (by rw [hc.1, hc.2])
  rcases hij with h | h
  · exact stride_interval_disjoint h ha1 hb1 ha2 hb2
  · exact stride_interval_disjoint h hc1 hd1 hc2 hd2

/-- Witness for the amended claim C5, applied to the first and third tiles of
the program's grid and the shared boundary pixel `(129, 1)` — which the
half-open reading assigns to neither of the two interiors simultaneously. -/
theorem tiles_interior_disjoint_witness :
    ¬ (tileContainsInner (1, 129, 1, 129) 129 1 ∧
       tileContainsInner (129, 257, 1, 129) 129 1) :=
  tiles_interior_disjoint 256 256 128 (1, 129, 1, 129) (129, 257, 1, 129)
    (by decide) (by decide) (by decide) 129 1

/-! ## Claim C6 — saturating tile navigation -/

/-- Claim C6: for every sequence of next/previous events the tile index stays
in `[0, len - 1]`, advancing on the last tile stays on the last tile, and
retreating on the first stays on the first. -/
theorem nav_saturating (len idx : ℤ) (ks : List NavKey)
    (hlen : 1 ≤ len) (h0 : 0 ≤ idx) (h1 : idx ≤ len - 1) :
    (0 ≤ navRun len idx ks ∧ navRun len idx ks ≤ len - 1) ∧
    navNext len (len - 1) = len - 1 ∧ navPrev 0 = 0 := by
  refine ⟨?_, by simp [navNext], by simp [navPrev]⟩
  induction ks generalizing idx with
  | nil => exact ⟨h0, h1⟩
  | cons k rest ih =>
      have hstep : 0 ≤ navStep len idx k ∧ navStep len idx k ≤ len - 1 := by
        cases k <;> simp [navStep, navNext, navPrev] <;> omega
      simpa [navRun, List.foldl] using ih (navStep len idx k) hstep.1 hstep.2

/-- Witness for claim C6 on a four-tile grid, starting at the first tile and
pressing next, next, previous, previous, previous. -/
theorem nav_saturating_witness :
    (0 ≤ navRun 4 0 [NavKey.n, NavKey.n, NavKey.p, NavKey.p, NavKey.p] ∧
      navRun 4 0 [NavKey.n, NavKey.n, NavKey.p, NavKey.p, NavKey.p] ≤ 4 - 1) ∧
    navNext 4 (4 - 1) = 4 - 1 ∧ navPrev 0 = 0 :=
  nav_saturating 4 0 [NavKey.n, NavKey.n, NavKey.p, NavKey.p, NavKey.p]
    (by decide) (by decide) (by decide)

/-! ## Claim C7 — add/delete while blinking is rejected -/

/-- Claim C7: when blink is on, an add-mark or delete-mark event produces
exactly the corresponding warning, leaves the whole loop state unchanged — no
sidecar is created, written or deleted, no marker is added or removed, and the
tile index and blink flag stay as they were — and the loop continues. -/
theorem blinking_guard_no_state_change (sections : List (ℤ × ℤ × ℤ × ℤ))
    (st : LoopState) (x y : ℚ) (hb : st.blinking = true) :
    dispatch sections st Key.a x y = Except.ok (st, [warnAdd], true) ∧
    dispatch sections st Key.d x y = Except.ok (st, [warnDel], true) := by
  constructor <;> simp [dispatch, hb]

/-- Witness for claim C7 at a concrete blinking state. -/
theorem blinking_guard_no_state_change_witness :
    dispatch [] ⟨0, true, [], Option.none⟩ Key.a 1 1 =
      Except.ok (⟨0, true, [], Option.none⟩, [warnAdd], true) ∧
    dispatch [] ⟨0, true, [], Option.none⟩ Key.d 1 1 =
      Except.ok (⟨0, true, [], Option.none⟩, [warnDel], true) :=
  blinking_guard_no_state_change [] ⟨0, true, [], Option.none⟩ 1 1 rfl

end Blinkbo
